import Mathlib

/-!
Verification of the jwt-auth repository: a shallow embedding of the token
lifecycle orchestrator (AuthServer), its scope and payload codecs, the
Express transport adapter (ExpressAuth) and the browser AuthClient, with
theorems settling the specification claims.
-/

/-! ## Character-list splitting

JavaScript's `String.prototype.split` with a one-character separator splits on
every occurrence of the separator and keeps empty pieces.  We embed strings as
their character lists and model the split as a structural recursion. -/

/-- Splits a character list on every occurrence of `c`, keeping empty pieces,
with `acc` the (reversed) piece currently being read. -/
def splitChAux (c : Char) (acc : List Char) : List Char → List (List Char)
  | [] => [acc.reverse]
  | x :: xs => if x = c then acc.reverse :: splitChAux c [] xs else splitChAux c (x :: acc) xs

/-- JS `s.split(c)` for a single-character separator `c`. -/
def splitCh (c : Char) (l : List Char) : List (List Char) :=
  splitChAux c [] l

/-! ## Scope codec (AuthScope)

Modelled from the spec: the AuthScope implementation is not under src/ (only
its configuration `new AuthScope({ admin: 'a' })` and the call
`scope.create(['admin:read', 'admin:write'])` with observed result `'a:r:w'`
appear in the tests).  Per the spec, `encode` groups grants by resource, maps
the resource through the registry and each action through a fixed
resource-independent action alphabet (`read→r`, `write→w`), emits actions in a
fixed canonical order, joins a resource's codes with `:` and distinct resource
segments with `,`; `decode` is the inverse. -/

inductive ScopeAction where
  | read
  | write
deriving DecidableEq, Fintype, Repr

inductive ScopeResource where
  | admin
deriving DecidableEq, Fintype, Repr

abbrev ScopeGrant := ScopeResource × ScopeAction

/-- The fixed canonical order of actions (`read` before `write`, as in the
observed encoding `a:r:w`). -/
def scopeActions : List ScopeAction := [.read, .write]

/-- The resources of the configured scope registry `{ admin: 'a' }`. -/
def registryResources : List ScopeResource := [.admin]

/-- Resource code from the configured registry. -/
def resourceCode : ScopeResource → String
  | .admin => "a"

/-- The fixed, resource-independent action alphabet. -/
def actionCode : ScopeAction → String
  | .read => "r"
  | .write => "w"

/-- The actions granted on resource `r` according to membership test `p`,
listed in canonical order. -/
def actionsWhere (p : ScopeGrant → Bool) (r : ScopeResource) : List ScopeAction :=
  scopeActions.filter (fun a => p (r, a))

/-- One resource segment: `<resourceCode>:<action1>:<action2>...`. -/
def scopeSegment (r : ScopeResource) (acts : List ScopeAction) : String :=
  resourceCode r ++ String.join (acts.map (fun a => ":" ++ actionCode a))

/-- Encoding of the set of grants selected by `p`: one segment per resource
with at least one action, segments joined with `,`. -/
def encodeWhere (p : ScopeGrant → Bool) : String :=
  String.intercalate ","
    (((registryResources.filter (fun r => !(actionsWhere p r).isEmpty)).map
      (fun r => scopeSegment r (actionsWhere p r))))

/-- The `AuthScope` encoding of a ScopeSet. -/
def scopeEncode (s : Finset ScopeGrant) : String :=
  encodeWhere (fun g => decide (g ∈ s))

/-- The `AuthScope.create` operation: encoding of a caller-supplied list of grants. -/
def scopeCreate (l : List ScopeGrant) : String :=
  encodeWhere (fun g => decide (g ∈ l))

/-- Reverse lookup in the scope registry. -/
def codeResource : List Char → Option ScopeResource
  | ['a'] => some .admin
  | _ => none

/-- Reverse lookup in the action alphabet. -/
def codeAction : List Char → Option ScopeAction
  | ['r'] => some .read
  | ['w'] => some .write
  | _ => none

/-- Decodes one resource segment into its list of grants. -/
def decodeSegment (seg : List Char) : Option (List ScopeGrant) :=
  match splitCh ':' seg with
  | [] => none
  | rc :: acs => do
    let r ← codeResource rc
    let acts ← acs.mapM codeAction
    return acts.map (fun a => (r, a))

/-- The `AuthScope` decoding: empty string decodes to the empty set, otherwise
split on `,` into segments and on `:` within a segment. -/
def scopeDecode (s : String) : Option (Finset ScopeGrant) :=
  if s = "" then some ∅
  else do
    let segs ← (splitCh ',' s.data).mapM decodeSegment
    return segs.flatten.toFinset

/-! ## Payload codec (AuthPayload)

Modelled from the spec: the AuthPayload implementation is not under src/; the
tests construct it with the field-name mapping
`{ uId: 'id', cId: 'companyId', scope: 'scope' }`.  Per the spec it is a pure
structural rename between the canonical payload and the compact claim. -/

/-- The caller-facing canonical payload shape. -/
structure CanonicalPayload where
  id : String
  companyId : String
  scope : String
deriving DecidableEq, Repr

/-- The compact claim shape embedded in a signed token. -/
structure CompactClaim where
  uId : String
  cId : String
  scope : String
deriving DecidableEq, Repr

/-- The `AuthPayload.create` rename: `id→uId`, `companyId→cId` per the configured
mapping; `scope` passes through. -/
def payloadEncode (p : CanonicalPayload) : CompactClaim :=
  { uId := p.id, cId := p.companyId, scope := p.scope }

/-- The inverse rename, `AuthPayload.getPayload`. -/
def payloadDecode (c : CompactClaim) : CanonicalPayload :=
  { id := c.uId, companyId := c.cId, scope := c.scope }

/-! ## Signer (jsonwebtoken)

Modelled from the spec: the external signer is out of scope of the core and
specified only at its interface (`sign` with an expiry, `verify` with a
clock-tolerance window failing on bad signature / expiry / malformed input).
A signed token is embedded structurally; times are seconds since the epoch. -/

/-- A signed JWT: its claims, issue/expiry times, and whether its signature
verifies against the server secret. -/
structure SignedToken where
  claims : CompactClaim
  iat : Nat
  exp : Nat
  sigOk : Bool
deriving DecidableEq, Repr

/-- An access-token input string: empty, not a JWT at all, or a signed JWT. -/
inductive Jwt where
  | empty
  | malformed (s : String)
  | signed (t : SignedToken)
deriving DecidableEq, Repr

inductive VerifyErr where
  | invalidSignature
  | expired
  | malformedToken
deriving DecidableEq, Repr

/-- The `clockTolerance: 80` seconds from the AccessToken strategy in the tests. -/
def clockTolerance : Nat := 80

/-- The `expiresIn: '20m'` access-token expiry from the AccessToken strategy in the tests. -/
def accessTokenExpiresIn : Nat := 20 * 60

/-- Behavior of `jwt.verify` at wall-clock time `now`: it fails on a bad signature, on expiry
beyond the tolerance window, and on malformed input. -/
def jwtVerify (tok : Jwt) (now : Nat) : Except VerifyErr CompactClaim :=
  match tok with
  | .empty => .error .malformedToken
  | .malformed _ => .error .malformedToken
  | .signed t =>
    if !t.sigOk then .error .invalidSignature
    else if t.exp + clockTolerance < now then .error .expired
    else .ok t.claims

/-- Behavior of `jwt.sign` at wall-clock time `now` with the 20-minute expiry. -/
def jwtSign (c : CompactClaim) (now : Nat) : Jwt :=
  .signed { claims := c, iat := now, exp := now + accessTokenExpiresIn, sigOk := true }

/-! ## AccessToken strategy (from src tests) and AuthServer core

The AccessToken strategy's `buildPayload` is under src/ (the tests).  The
AuthServer core itself is not; its operations are modelled from the spec. -/

/-- The input `{ id, companyId, admin }` the caller passes when creating
tokens. -/
structure UserInput where
  id : String
  companyId : String
  admin : Bool
deriving DecidableEq, Repr

/-- From the tests, `AccessToken.buildPayload`: an admin gets the scope
`['admin:read', 'admin:write']`, anyone else the empty scope. -/
def buildPayload (u : UserInput) : CanonicalPayload :=
  { id := u.id
    companyId := u.companyId
    scope := if u.admin then scopeCreate [(.admin, .read), (.admin, .write)] else "" }

/-- Modelled from the spec: `AuthServer.createAccessToken` (core not under
src/) builds the strategy payload, encodes it through the payload codec, signs
it, and returns both the token and the canonical payload actually embedded. -/
def createAccessToken (u : UserInput) (now : Nat) : Jwt × CanonicalPayload :=
  let p := buildPayload u
  (jwtSign (payloadEncode p) now, p)

namespace AuthServer

/-- Modelled from the spec: `AuthServer.verify` (core not under src/) runs the
strategy verification then the payload codec decode, surfacing every
verification failure to the caller. -/
def verify (tok : Jwt) (now : Nat) : Except VerifyErr CanonicalPayload :=
  (jwtVerify tok now).map payloadDecode

/-- Modelled from the spec: `AuthServer.decode` (core not under src/) is the
soft variant of `verify`: an empty token input or any verification error
collapses to `null`. -/
def decode (tok : Jwt) (now : Nat) : Option CanonicalPayload :=
  match tok with
  | .empty => none
  | _ => (verify tok now).toOption

end AuthServer

/-- The expired token hard-coded in the tests: its claim set (visible in its
base64 payload) is `{uId: 'user_123', cId: 'company_123', scope: 'a:r:w',
iat: 1518141234, exp: 1518142434}`, correctly signed. -/
def expiredToken : Jwt :=
  .signed
    { claims := { uId := "user_123", cId := "company_123", scope := "a:r:w" }
      iat := 1518141234
      exp := 1518142434
      sigOk := true }

/-- A present-day clock reading, far past the expired token's window. -/
def nowT : Nat := 1760000000

/-! ## RefreshToken strategy and store (from src tests)

The RefreshToken strategy in the tests keeps refresh records in a `Map`,
embedded here as an association list keyed by the opaque identifier. -/

/-- A refresh record `{ userId, expireAt }` as stored by the tests'
RefreshToken strategy. -/
structure RefreshRecord where
  userId : String
  expireAt : Nat
deriving DecidableEq, Repr

/-- The refresh-token store: `refreshTokens : Map<string, RefreshRecord>`. -/
abbrev RefreshStore := List (String × RefreshRecord)

/-- The `Map.get` lookup: the record stored under `id`, if any. -/
def storeLookup (store : RefreshStore) (id : String) : Option RefreshRecord :=
  match store with
  | [] => none
  | (k, v) :: rest => if k = id then some v else storeLookup rest id

/-- From the tests, `RefreshToken.remove`: `refreshTokens.delete(refreshToken)`
returns whether the key existed and removes it. -/
def storeRemove (store : RefreshStore) (id : String) : Bool × RefreshStore :=
  ((storeLookup store id).isSome, store.filter (fun kv => kv.1 ≠ id))

/-- Modelled from the spec: `AuthServer.removeRefreshRoken` (core not under
src/) returns `false` for an empty identifier without a store round-trip and
otherwise delegates to the strategy's `remove`.  The third component counts
store round-trips performed. -/
def removeRefreshRoken (store : RefreshStore) (id : String) : Bool × RefreshStore × Nat :=
  if id = "" then (false, store, 0)
  else
    let r := storeRemove store id
    (r.1, r.2, 1)

/-- Events observable during a refresh-payload lookup: the rotation callback
firing and the store lookup. -/
inductive RtEv where
  | reset
  | lookup
deriving DecidableEq, Repr

/-- The store lookup as an event-traced operation. -/
def storeGetTraced (store : RefreshStore) (id : String) : List RtEv × Option RefreshRecord :=
  ([RtEv.lookup], storeLookup store id)

/-- From the tests, `RefreshToken.getPayload`: `reset(); return
refreshTokens.get(refreshToken)` — the rotation callback fires first, then the
store lookup runs. -/
def getPayload (store : RefreshStore) (id : String) : List RtEv × Option RefreshRecord :=
  let r := storeGetTraced store id
  (RtEv.reset :: r.1, r.2)

/-! ## createTokens and createRefreshToken -/

inductive StoreErr where
  | unavailable
deriving DecidableEq, Repr

/-- From the tests, `RefreshToken.create` persists a record under a fresh
identifier; `persistOk` stands for whether the external store's persistence
succeeds (the store is an external collaborator that may fail). -/
def createRefreshToken (store : RefreshStore) (u : UserInput) (newId : String)
    (persistOk : Bool) (now : Nat) : Except StoreErr (String × RefreshStore) :=
  if persistOk then
    .ok (newId, (newId, { userId := u.id, expireAt := now + 30 * 24 * 60 * 60 }) :: store)
  else .error .unavailable

/-- The result of `createTokens`. -/
structure TokensResult where
  accessToken : Jwt
  refreshToken : String
  payload : CanonicalPayload
deriving DecidableEq, Repr

/-- Modelled from the spec: `AuthServer.createTokens` (core not under src/)
composes access- and refresh-token creation; if refresh-token persistence
fails the whole operation fails, so no access token is ever returned without
its paired refresh token. -/
def createTokens (u : UserInput) (now : Nat) (store : RefreshStore) (newId : String)
    (persistOk : Bool) : Except StoreErr (TokensResult × RefreshStore) :=
  let a := createAccessToken u now
  match createRefreshToken store u newId persistOk now with
  | .error e => .error e
  | .ok (rid, store') =>
    .ok ({ accessToken := a.1, refreshToken := rid, payload := a.2 }, store')

/-- The concrete value `createTokens ⟨"u","c",false⟩ 0 [] "rt1" true` returns
(used to witness the success case of `createTokens`). -/
def c8Result : TokensResult :=
  { accessToken := Jwt.signed
      { claims := { uId := "u", cId := "c", scope := "" }, iat := 0, exp := 1200, sigOk := true }
    refreshToken := "rt1"
    payload := { id := "u", companyId := "c", scope := "" } }

/-- The store state after that `createTokens` call. -/
def c8Store : RefreshStore := [("rt1", { userId := "u", expireAt := 2592000 })]

/-! ## Request extraction (AuthServer.getAccessToken)

Modelled from the spec: the core's extraction policy is not under src/.  Per
the spec it is pure and synchronous: an `Authorization: Bearer <token>` header
wins, else the cookie under the configured access-token cookie name, else
`null`. -/

/-- A request source: optional `headers.authorization` and optional cookies. -/
structure RequestSource where
  authorization : Option String
  cookies : List (String × String)

/-- The access-token cookie name configured in the tests. -/
def accessTokenCookieName : String := "abc"

/-- The token of a `Bearer <token>` header value, when the value has that
form with a nonempty token. -/
def bearerOf : List Char → Option (List Char)
  | 'B' :: 'e' :: 'a' :: 'r' :: 'e' :: 'r' :: ' ' :: rest =>
    if rest = [] then none else some rest
  | _ => none

/-- Cookie lookup by name. -/
def cookieLookup (cookies : List (String × String)) (name : String) : Option String :=
  match cookies with
  | [] => none
  | (k, v) :: rest => if k = name then some v else cookieLookup rest name

/-- Modelled from the spec: `AuthServer.getAccessToken` — header Bearer token
if present, else the configured cookie, else `null`. -/
def serverGetAccessToken (src : RequestSource) : Option String :=
  match src.authorization.bind (fun a => (bearerOf a.data).map String.mk) with
  | some t => some t
  | none => cookieLookup src.cookies accessTokenCookieName

/-! ## Express adapter (src/packages/next-key-express/src/express.ts) -/

/-- An HTTP header value as Express delivers it: a string or an array. -/
inductive HeaderVal where
  | str (s : String)
  | arr (l : List String)
deriving DecidableEq, Repr

/-- An Express request: the `authorization` header, cookies, and the `user`
field the middleware assigns (`none` while unset). -/
structure ExpressReq where
  authorization : Option HeaderVal
  cookies : List (String × String)
  user : Option (Option CanonicalPayload)
deriving DecidableEq, Repr

/-- From express.ts, `ExpressAuth.getAccessToken`:
`authorization && typeof authorization === 'string' && authorization.split(' ')[1]`
then `accessToken || null`: the piece at index 1 of the header split on single
spaces, with every falsy intermediate collapsing to `null`. -/
def expressGetAccessToken (req : ExpressReq) : Option String :=
  match req.authorization with
  | some (.str a) =>
    if a = "" then none
    else
      match (splitCh ' ' a.data).get? 1 with
      | some t => if t = [] then none else some (String.mk t)
      | none => none
  | some (.arr _) => none
  | none => none

/-- Modelled from the spec: the verification the authorization middleware
runs (next-key-server's, not under src/) is the soft variant that swallows
every verification failure and degrades to `null` rather than crashing the
request. -/
def middlewareVerify (tok : Jwt) (now : Nat) : Option CanonicalPayload :=
  (AuthServer.verify tok now).toOption

/-- From express.ts, `ExpressAuth.authorize`:
`req.user = accessToken ? this.verify(accessToken) : null; next()`.
`tokenOf` interprets the extracted header string as a JWT; the returned Bool
records that `next` was called. -/
def authorize (tokenOf : String → Jwt) (req : ExpressReq) (now : Nat) : ExpressReq × Bool :=
  let accessToken := expressGetAccessToken req
  let user : Option CanonicalPayload :=
    match accessToken with
    | some s => middlewareVerify (tokenOf s) now
    | none => none
  ({ req with user := some user }, true)

/-! ## AuthClient (src, appended to the jwt-auth-server test file)

`fetchClientToken` keeps at most one in-flight token fetch in the single slot
`clientATFetch`.  Futures are numbered; `futures` records each one's state. -/

inductive FutureState where
  | pending
  | resolvedF
  | rejectedF
deriving DecidableEq, Repr

/-- The AuthClient's refresh-relevant state: the single-slot pending-fetch
cache and the states of the futures created so far. -/
structure ClientState where
  clientATFetch : Option Nat
  futures : List FutureState
deriving DecidableEq, Repr

/-- What a call to `fetchClientToken` returns. -/
inductive FetchResult where
  | noToken
  | validToken (t : String)
  | attached (f : Nat)
  | started (f : Nat)
deriving DecidableEq, Repr

/-- From the source, `AuthClient.fetchClientToken`: no cookie token → return
undefined; a still-valid cookie token → return it; else, if `clientATFetch`
holds an in-flight promise, return that promise; else start a new fetch and
store its promise in `clientATFetch`. -/
def fetchClientToken (cookieToken : Option String) (valid : String → Bool)
    (s : ClientState) : FetchResult × ClientState :=
  match cookieToken with
  | none => (.noToken, s)
  | some t =>
    if valid t then (.validToken t, s)
    else
      match s.clientATFetch with
      | some f => (.attached f, s)
      | none =>
        let f := s.futures.length
        (.started f, { clientATFetch := some f, futures := s.futures ++ [.pending] })

/-- Settlement by success: the source's `.then` continuation runs, which sets
`this.clientATFetch = undefined`. -/
def resolveFetch (s : ClientState) (f : Nat) : ClientState :=
  { clientATFetch := none, futures := s.futures.set f .resolvedF }

/-- Settlement by failure: the source attaches no rejection handler to the
stored promise, so only the future's state changes — `clientATFetch` is left
as it is. -/
def rejectFetch (s : ClientState) (f : Nat) : ClientState :=
  { s with futures := s.futures.set f .rejectedF }

/-! ## Helper lemmas -/

/-- A freshly signed token verifies to its own claims while inside the
expiry-plus-tolerance window. -/
theorem jwtVerify_jwtSign (c : CompactClaim) (now vnow : Nat)
    (h : vnow ≤ now + accessTokenExpiresIn + clockTolerance) :
    jwtVerify (jwtSign c now) vnow = .ok c := by
  simp [jwtVerify, jwtSign, Nat.not_lt.mpr h]

/-- The payload codec decode is a left inverse of its encode. -/
theorem payloadDecode_payloadEncode (p : CanonicalPayload) :
    payloadDecode (payloadEncode p) = p := rfl

/-- After filtering out a key, looking it up finds nothing. -/
theorem storeLookup_filter_ne (store : RefreshStore) (id : String) :
    storeLookup (store.filter (fun kv => kv.1 ≠ id)) id = none := by
  induction store with
  | nil => rfl
  | cons kv rest ih =>
    obtain ⟨k, v⟩ := kv
    by_cases h : k = id
    · rw [List.filter_cons_of_neg (by simp [h])]
      exact ih
    · rw [List.filter_cons_of_pos (by simp [h])]
      simpa [storeLookup, h] using ih

/-- After `storeRemove`, the removed key is gone from the store. -/
theorem storeLookup_storeRemove (store : RefreshStore) (id : String) :
    storeLookup (storeRemove store id).2 id = none :=
  storeLookup_filter_ne store id

/-- Splitting a list that starts with a separator-free block `w` followed by
the separator yields `w` (after the pending accumulator) as the first piece. -/
theorem splitChAux_append (sep : Char) (acc w rest : List Char)
    (hw : ∀ c ∈ w, c ≠ sep) :
    splitChAux sep acc (w ++ sep :: rest) = (acc.reverse ++ w) :: splitChAux sep [] rest := by
  induction w generalizing acc with
  | nil => simp [splitChAux]
  | cons c cs ih =>
    have hc : c ≠ sep := hw c (by simp)
    simp only [List.cons_append, splitChAux, if_neg hc, List.append_eq]
    rw [ih (c :: acc) (fun d hd => hw d (by simp [hd]))]
    simp

/-- Splitting a separator-free list yields that single piece. -/
theorem splitChAux_no_sep (sep : Char) (acc l : List Char)
    (hl : ∀ c ∈ l, c ≠ sep) :
    splitChAux sep acc l = [acc.reverse ++ l] := by
  induction l generalizing acc with
  | nil => simp [splitChAux]
  | cons c cs ih =>
    have hc : c ≠ sep := hl c (by simp)
    simp only [splitChAux, if_neg hc]
    rw [ih (c :: acc) (fun d hd => hl d (by simp [hd]))]
    simp

/-- JS `split` of `<block> <block>` on the space produces the two blocks. -/
theorem splitCh_two_blocks (w t : List Char)
    (hw : ∀ c ∈ w, c ≠ ' ') (ht : ∀ c ∈ t, c ≠ ' ') :
    splitCh ' ' (w ++ ' ' :: t) = [w, t] := by
  unfold splitCh
  rw [splitChAux_append ' ' [] w t hw, splitChAux_no_sep ' ' [] t ht]
  simp



/-! ## Claim theorems -/

/-- C1: for every request source, `getAccessToken` returns the token of an
`Authorization: Bearer <token>` header when one is present (taking strict
priority over any cookie), otherwise the configured access-token cookie's
value when present, otherwise `null`. -/
theorem C1_server_getAccessToken_priority :
    (∀ (H : String) (cookies : List (String × String)), H ≠ "" →
      serverGetAccessToken ⟨some ("Bearer " ++ H), cookies⟩ = some H) ∧
    (∀ (a : String) (cookies : List (String × String)), bearerOf a.data = none →
      serverGetAccessToken ⟨some a, cookies⟩ = cookieLookup cookies accessTokenCookieName) ∧
    (∀ (cookies : List (String × String)) (C : String),
      cookieLookup cookies accessTokenCookieName = some C →
      serverGetAccessToken ⟨none, cookies⟩ = some C) ∧
    (∀ cookies : List (String × String),
      cookieLookup cookies accessTokenCookieName = none →
      serverGetAccessToken ⟨none, cookies⟩ = none) := by
  refine ⟨?_, ?_, ?_, ?_⟩
  · intro H cookies hH
    have hne : H.data ≠ [] := fun h => hH (String.ext h)
    have hB : "Bearer ".data = ['B', 'e', 'a', 'r', 'e', 'r', ' '] := rfl
    have hdata : ("Bearer " ++ H).data
        = 'B' :: 'e' :: 'a' :: 'r' :: 'e' :: 'r' :: ' ' :: H.data := by
      rw [String.data_append, hB]
      rfl
    simp [serverGetAccessToken, hdata, bearerOf, hne]
  · intro a cookies h
    simp [serverGetAccessToken, h]
  · intro cookies C h
    simp [serverGetAccessToken, h]
  · intro cookies h
    simp [serverGetAccessToken, h]

/-- Witness for C1 at a source carrying both a Bearer header and the
access-token cookie: the header's token wins. -/
theorem C1_witness :
    serverGetAccessToken ⟨some ("Bearer " ++ "tok"), [(accessTokenCookieName, "ck")]⟩
      = some "tok" :=
  C1_server_getAccessToken_priority.1 "tok" [(accessTokenCookieName, "ck")] (by decide)

/-- C2: `decode` never fails the caller — the empty input and any token whose
verification fails collapse to `null` — while `verify` of the expired test
token fails. -/
theorem C2_decode_never_fails :
    AuthServer.decode Jwt.empty nowT = none ∧
    AuthServer.verify expiredToken nowT = .error .expired ∧
    AuthServer.decode expiredToken nowT = none ∧
    (∀ (tok : Jwt) (now : Nat) (e : VerifyErr),
      AuthServer.verify tok now = .error e → AuthServer.decode tok now = none) := by
  refine ⟨rfl, rfl, rfl, ?_⟩
  intro tok now e h
  cases tok with
  | empty => rfl
  | malformed s => simp [AuthServer.decode, h, Except.toOption]
  | signed t => simp [AuthServer.decode, h, Except.toOption]

/-- Witness for C2 on a concrete malformed token. -/
theorem C2_witness :
    AuthServer.decode (Jwt.malformed "zzz") nowT = none :=
  C2_decode_never_fails.2.2.2 (Jwt.malformed "zzz") nowT VerifyErr.malformedToken rfl

/-- C3: verifying a freshly created access token (still inside the
expiry-plus-tolerance window) returns exactly the canonical payload that
`createAccessToken` reported as embedded. -/
theorem C3_verify_createAccessToken (u : UserInput) (now vnow : Nat)
    (h : vnow ≤ now + accessTokenExpiresIn + clockTolerance) :
    AuthServer.verify (createAccessToken u now).1 vnow
      = .ok (createAccessToken u now).2 := by
  show (jwtVerify (jwtSign (payloadEncode (buildPayload u)) now) vnow).map payloadDecode
      = .ok (buildPayload u)
  rw [jwtVerify_jwtSign _ _ _ h]
  rfl

/-- Witness for C3 at the test payload, verified at creation time. -/
theorem C3_witness :
    AuthServer.verify (createAccessToken ⟨"user_123", "company_123", true⟩ 1000).1 1000
      = .ok (createAccessToken ⟨"user_123", "company_123", true⟩ 1000).2 :=
  C3_verify_createAccessToken ⟨"user_123", "company_123", true⟩ 1000 1000 (by decide)

/-- C4: `removeRefreshRoken` returns `true` exactly once for an identifier in
the store, then `false` on a repeated call; `false` for an unknown
identifier; and `false` for the empty identifier with no store round-trip. -/
theorem C4_removeRefreshRoken_idempotent :
    (∀ (store : RefreshStore) (id : String), id ≠ "" →
      (storeLookup store id).isSome = true →
      (removeRefreshRoken store id).1 = true ∧
      (removeRefreshRoken (removeRefreshRoken store id).2.1 id).1 = false) ∧
    (∀ (store : RefreshStore) (id : String), storeLookup store id = none →
      (removeRefreshRoken store id).1 = false) ∧
    (∀ store : RefreshStore, removeRefreshRoken store "" = (false, store, 0)) := by
  refine ⟨?_, ?_, ?_⟩
  · intro store id hid hsome
    constructor
    · simp [removeRefreshRoken, hid, storeRemove, hsome]
    · have h2 := storeLookup_storeRemove store id
      simp [storeRemove] at h2
      simp [removeRefreshRoken, hid, storeRemove, h2]
  · intro store id h
    by_cases hid : id = ""
    · simp [removeRefreshRoken, hid]
    · simp [removeRefreshRoken, hid, storeRemove, h]
  · intro store
    rfl

/-- Witness for C4 on a one-record store: removal succeeds once, then the
repeated call returns `false`. -/
theorem C4_witness :
    (removeRefreshRoken [("rt1", ⟨"user_123", 5⟩)] "rt1").1 = true ∧
    (removeRefreshRoken (removeRefreshRoken [("rt1", ⟨"user_123", 5⟩)] "rt1").2.1 "rt1").1
      = false :=
  C4_removeRefreshRoken_idempotent.1 [("rt1", ⟨"user_123", 5⟩)] "rt1" (by decide) (by decide)

/-- C5: `getPayload` fires the rotation callback exactly once, before the
store lookup, and returns `undefined` (not an error) for an absent
identifier. -/
theorem C5_getPayload_reset_once (store : RefreshStore) (id : String) :
    (getPayload store id).1 = [RtEv.reset, RtEv.lookup] ∧
    (getPayload store id).1.count RtEv.reset = 1 ∧
    (getPayload store id).1.head? = some RtEv.reset ∧
    (storeLookup store id = none → (getPayload store id).2 = none) ∧
    (∀ r, storeLookup store id = some r → (getPayload store id).2 = some r) := by
  refine ⟨rfl, rfl, rfl, ?_, ?_⟩
  · intro h
    simpa [getPayload, storeGetTraced] using h
  · intro r h
    simpa [getPayload, storeGetTraced] using h

/-- Witness for C5 on the empty store: one reset before the lookup, and the
absent identifier yields `none`. -/
theorem C5_witness :
    (getPayload [] "rt").1 = [RtEv.reset, RtEv.lookup] ∧ (getPayload [] "rt").2 = none :=
  ⟨(C5_getPayload_reset_once [] "rt").1, (C5_getPayload_reset_once [] "rt").2.2.2.1 rfl⟩

/-- C6: over the registered resources and supported actions, the scope
codec's decode is the exact inverse of encode (set equality), encode is
deterministic in the grants' insertion order, and the example set
`{(admin,read),(admin,write)}` encodes to `a:r:w`. -/
theorem C6_scope_codec_roundtrip :
    (∀ s : Finset ScopeGrant, scopeDecode (scopeEncode s) = some s) ∧
    (∀ l1 l2 : List ScopeGrant, l1.toFinset = l2.toFinset →
      scopeCreate l1 = scopeCreate l2) ∧
    scopeEncode {(.admin, .read), (.admin, .write)} = "a:r:w" := by
  refine ⟨by decide, ?_, by decide⟩
  intro l1 l2 h
  unfold scopeCreate
  congr 1
  funext g
  rw [decide_eq_decide, ← List.mem_toFinset, ← List.mem_toFinset, h]

/-- Witness for C6: the two insertion orders of the admin grants encode to
the same string. -/
theorem C6_witness :
    scopeCreate [(.admin, .write), (.admin, .read)]
      = scopeCreate [(.admin, .read), (.admin, .write)] :=
  C6_scope_codec_roundtrip.2.1
    [(.admin, .write), (.admin, .read)] [(.admin, .read), (.admin, .write)] (by decide)

/-- C7: the `authorize` middleware always calls `next` (never crashes the
request); a valid access token puts its canonical payload in `req.user`,
while a missing or failing token puts `null` there. -/
theorem C7_authorize_never_crashes (tokenOf : String → Jwt) (req : ExpressReq) (now : Nat) :
    (authorize tokenOf req now).2 = true ∧
    (∀ s p, expressGetAccessToken req = some s →
      AuthServer.verify (tokenOf s) now = .ok p →
      ((authorize tokenOf req now).1).user = some (some p)) ∧
    (expressGetAccessToken req = none →
      ((authorize tokenOf req now).1).user = some none) ∧
    (∀ s e, expressGetAccessToken req = some s →
      AuthServer.verify (tokenOf s) now = .error e →
      ((authorize tokenOf req now).1).user = some none) := by
  refine ⟨rfl, ?_, ?_, ?_⟩
  · intro s p hs hv
    simp [authorize, hs, middlewareVerify, hv, Except.toOption]
  · intro h
    simp [authorize, h]
  · intro s e hs hv
    simp [authorize, hs, middlewareVerify, hv, Except.toOption]

/-- Witness for C7: a request carrying the expired test token completes with
`req.user` set to `null`. -/
theorem C7_witness :
    ((authorize (fun _ => expiredToken) ⟨some (.str "Bearer x"), [], none⟩ nowT).1).user
      = some none :=
  (C7_authorize_never_crashes (fun _ => expiredToken)
      ⟨some (.str "Bearer x"), [], none⟩ nowT).2.2.2 "x" VerifyErr.expired rfl rfl

/-- C8: `createTokens` has no partial-success outcome — if refresh-token
persistence fails the whole operation fails, and on success the returned
payload is the value embedded in (and recoverable from) the returned access
token. -/
theorem C8_createTokens_atomic (u : UserInput) (now : Nat) (store : RefreshStore)
    (newId : String) :
    createTokens u now store newId false = .error .unavailable ∧
    (∀ (res : TokensResult) (store' : RefreshStore),
      createTokens u now store newId true = .ok (res, store') →
      res.payload = (createAccessToken u now).2 ∧
      AuthServer.verify res.accessToken now = .ok res.payload) := by
  constructor
  · rfl
  · intro res store' h
    simp only [createTokens, createRefreshToken, if_pos, Except.ok.injEq, Prod.mk.injEq] at h
    obtain ⟨h1, -⟩ := h
    subst h1
    refine ⟨rfl, ?_⟩
    show (jwtVerify (jwtSign (payloadEncode (buildPayload u)) now) now).map payloadDecode
        = .ok (buildPayload u)
    rw [jwtVerify_jwtSign _ _ _ ((Nat.le_add_right _ _).trans (Nat.le_add_right _ _))]
    rfl

/-- Witness for C8 at a concrete input: the success case returns the payload
embedded in the access token. -/
theorem C8_witness :
    c8Result.payload = (createAccessToken ⟨"u", "c", false⟩ 0).2 ∧
    AuthServer.verify c8Result.accessToken 0 = .ok c8Result.payload :=
  (C8_createTokens_atomic ⟨"u", "c", false⟩ 0 [] "rt1").2 c8Result c8Store rfl

/-- C9 counterexample: after a started fetch is rejected, the single-slot
cache still holds the settled future, and a later refresh attempt attaches to
that rejected future instead of starting a new fetch — refuting the claim
that the slot clears unconditionally when the future settles. -/
theorem C9_counterexample :
    (fetchClientToken (some "tok") (fun _ => false) ⟨none, []⟩).1 = FetchResult.started 0 ∧
    (rejectFetch (fetchClientToken (some "tok") (fun _ => false) ⟨none, []⟩).2 0).clientATFetch
      = some 0 ∧
    (fetchClientToken (some "tok") (fun _ => false)
        (rejectFetch (fetchClientToken (some "tok") (fun _ => false) ⟨none, []⟩).2 0)).1
      = FetchResult.attached 0 ∧
    (fetchClientToken (some "tok") (fun _ => false)
        (rejectFetch (fetchClientToken (some "tok") (fun _ => false) ⟨none, []⟩).2 0)).2.futures
      = [FutureState.rejectedF] := by
  refine ⟨rfl, rfl, rfl, rfl⟩

/-- C9 (amended): concurrent callers attach to the in-flight future; the slot
clears when the future resolves successfully; a rejection leaves the slot
unchanged (still holding the settled future); with a free slot a new fetch
starts and occupies it. -/
theorem C9_dedup_amended (s : ClientState) (ct : String) (valid : String → Bool) (f : Nat) :
    (s.clientATFetch = some f → valid ct = false →
      fetchClientToken (some ct) valid s = (.attached f, s)) ∧
    (resolveFetch s f).clientATFetch = none ∧
    (rejectFetch s f).clientATFetch = s.clientATFetch ∧
    (s.clientATFetch = none → valid ct = false →
      (fetchClientToken (some ct) valid s).1 = .started s.futures.length ∧
      (fetchClientToken (some ct) valid s).2.clientATFetch = some s.futures.length) := by
  refine ⟨?_, rfl, rfl, ?_⟩
  · intro hs hv
    simp [fetchClientToken, hs, hv]
  · intro hs hv
    simp [fetchClientToken, hs, hv]

/-- Witness for C9's amended theorem: with the slot occupied, a concurrent
caller attaches to the in-flight future and the state is unchanged. -/
theorem C9_witness :
    fetchClientToken (some "t") (fun _ => false) ⟨some 0, [FutureState.pending]⟩
      = (.attached 0, ⟨some 0, [FutureState.pending]⟩) :=
  (C9_dedup_amended ⟨some 0, [FutureState.pending]⟩ "t" (fun _ => false) 0).1 rfl rfl

/-- C10: the Express adapter's `getAccessToken` never consults cookies,
returns the piece after the first space of the `authorization` header
whatever the scheme word is (`Basic x` yields `x` just like `Bearer x`), and
returns `null` when the header is absent, not a string, or has no second
piece. -/
theorem C10_express_getAccessToken :
    (∀ (auth : Option HeaderVal) (c1 c2 : List (String × String)) (u1 u2 : Option (Option CanonicalPayload)),
      expressGetAccessToken ⟨auth, c1, u1⟩ = expressGetAccessToken ⟨auth, c2, u2⟩) ∧
    (∀ (w t : String) (cs : List (String × String)) (u : Option (Option CanonicalPayload)),
      (∀ c ∈ w.data, c ≠ ' ') → (∀ c ∈ t.data, c ≠ ' ') → t ≠ "" →
      expressGetAccessToken ⟨some (.str (w ++ " " ++ t)), cs, u⟩ = some t) ∧
    expressGetAccessToken ⟨some (.str "Basic x"), [], none⟩ = some "x" ∧
    expressGetAccessToken ⟨some (.str "Bearer x"), [], none⟩ = some "x" ∧
    (∀ (cs : List (String × String)) (u : Option (Option CanonicalPayload)),
      expressGetAccessToken ⟨none, cs, u⟩ = none) ∧
    (∀ (l : List String) (cs : List (String × String)) (u : Option (Option CanonicalPayload)),
      expressGetAccessToken ⟨some (.arr l), cs, u⟩ = none) ∧
    (∀ (cs : List (String × String)) (u : Option (Option CanonicalPayload)),
      expressGetAccessToken ⟨some (.str "Bearer"), cs, u⟩ = none) := by
  refine ⟨?_, ?_, rfl, rfl, ?_, ?_, ?_⟩
  · intro auth c1 c2 u1 u2
    cases auth with
    | none => rfl
    | some hv => cases hv <;> rfl
  · intro w t cs u hw ht hT
    have hsp : " ".data = [' '] := rfl
    have hdata : (w ++ " " ++ t).data = w.data ++ ' ' :: t.data := by
      rw [String.data_append, String.data_append, hsp, List.append_assoc]
      rfl
    have hne : (w ++ " " ++ t) ≠ "" := by
      intro h
      have hd : (w ++ " " ++ t).data = [] := by rw [h]
      rw [hdata] at hd
      simp at hd
    have htne : t.data ≠ [] := fun h => hT (String.ext h)
    simp only [expressGetAccessToken]
    rw [if_neg hne, hdata, splitCh_two_blocks w.data t.data hw ht]
    simp [htne]
  · intro cs u
    rfl
  · intro l cs u
    rfl
  · intro cs u
    rfl

/-- Witness for C10: a non-Bearer scheme with a token yields the token. -/
theorem C10_witness :
    expressGetAccessToken ⟨some (.str ("Token" ++ " " ++ "abc")), [], none⟩ = some "abc" :=
  C10_express_getAccessToken.2.1 "Token" "abc" [] none (by decide) (by decide) (by decide)
